import Mathlib

/-!
Shallow embedding of `rscrot` (`src/main.rs`), a screenshot capture-and-dispatch
utility, together with proofs about its action-selection and dispatch core.

External collaborators (maim, zenity, xclip, the imgur client, viewer programs,
desktop notifications, the filesystem) are opaque subprocesses or library calls:
their outcomes enter the embedding as explicit parameters, and the invocations
the program performs are recorded as an `Effect` trace.  A `Result::unwrap` on
an error value, or any other panic, is modelled by the `panicked` outcome, and a
panicking process exits with a non-zero status.  The `getopts` argument-parsing
crate is not part of this repository; it is modelled by its documented contract
(unknown options are parse errors, `optmulti` collects every occurrence in
order), while the option table itself is transcribed from `main.rs`.
-/

namespace Rscrot

/-- Process exit behaviour of a modelled run: normal return, or abort via
panic (which yields a non-zero process exit status). -/
inductive ExitKind where
  | normal
  | panicked
deriving DecidableEq, Repr

/-- Outcome of a fallible stage: `Ok` value, `Err` message (Rust `Result`),
or a panic (an `unwrap` on an error / invalid value). -/
inductive Res (α : Type) where
  | ok (a : α)
  | err (msg : String)
  | panicked
deriving DecidableEq, Repr

/-- Output of the zenity menu subprocess (`zenity --list`): whether the exit
status was success, the exit status itself, and stdout decoded as text
(the labels involved are all ASCII, so bytes and text coincide). -/
structure MenuOutput where
  success : Bool
  status : Int
  stdout : String
deriving DecidableEq, Repr

/-- Output of the zenity save-file dialog subprocess
(`zenity --file-selection --save`): stdout is kept as raw bytes because
`get_save_filename_from_zenity` performs a UTF-8 conversion on them. -/
structure ZOutput where
  success : Bool
  status : Int
  stdoutBytes : List Nat
deriving DecidableEq, Repr

/-- Result of a successful imgur upload: `imgur::UploadInfo`, exposing an
optional link URL. -/
structure UploadInfo where
  link : Option String
deriving DecidableEq, Repr

/-- The `enum Choice` from `main.rs` lines 33-38. -/
inductive Choice where
  | Upload
  | SaveAs (dest : String)
  | OpenWith (viewer : String)
  | CopyToClipboard
deriving DecidableEq, Repr

/-- One externally visible action performed by the program: a subprocess
invocation, a clipboard write, a notification, or a file copy. -/
inductive Effect where
  | runCapture (path : String) (select : Bool)
  | runMenu (labels : List String)
  | runSaveDialog
  | clipboardWrite (data : String) (mime : String)
  | notifySend (summary : String) (body : Option String)
  | fileCopy (src : String) (dst : String)
  | spawnViewer (viewer : String) (path : String)
deriving DecidableEq, Repr

/-- Is the effect one of the four dispatch actions (upload notification,
clipboard write, file copy, viewer spawn) as opposed to a capture or dialog
invocation? -/
def Effect.isDispatch : Effect → Bool
  | .clipboardWrite _ _ => true
  | .notifySend _ _ => true
  | .fileCopy _ _ => true
  | .spawnViewer _ _ => true
  | _ => false

/-- A UTF-8 continuation byte (`0x80..=0xBF`). -/
def isUtf8Cont (b : Nat) : Bool := decide (0x80 ≤ b) && decide (b < 0xC0)

/-- Allowed second byte of a three-byte UTF-8 sequence headed by `b`
(restricted for `0xE0` to exclude overlong forms and for `0xED` to exclude
surrogates, as in Rust's `String::from_utf8`). -/
def utf8Second3 (b b2 : Nat) : Bool :=
  if b = 0xE0 then decide (0xA0 ≤ b2) && decide (b2 ≤ 0xBF)
  else if b = 0xED then decide (0x80 ≤ b2) && decide (b2 ≤ 0x9F)
  else isUtf8Cont b2

/-- Allowed second byte of a four-byte UTF-8 sequence headed by `b`
(restricted for `0xF0` against overlong forms and for `0xF4` to stay below
`U+110000`). -/
def utf8Second4 (b b2 : Nat) : Bool :=
  if b = 0xF0 then decide (0x90 ≤ b2) && decide (b2 ≤ 0xBF)
  else if b = 0xF4 then decide (0x80 ≤ b2) && decide (b2 ≤ 0x8F)
  else isUtf8Cont b2

/-- Strict UTF-8 decoding of a byte list, modelling Rust's
`String::from_utf8`: `none` exactly when the bytes are not valid UTF-8. -/
def utf8DecodeAux : List Nat → Option (List Char)
  | [] => some []
  | b :: rest =>
    if b < 0x80 then
      match utf8DecodeAux rest with
      | some cs => some (Char.ofNat b :: cs)
      | none => none
    else if 0xC2 ≤ b ∧ b ≤ 0xDF then
      match rest with
      | b2 :: rest2 =>
        if isUtf8Cont b2 then
          match utf8DecodeAux rest2 with
          | some cs => some (Char.ofNat ((b - 0xC0) * 0x40 + (b2 - 0x80)) :: cs)
          | none => none
        else none
      | [] => none
    else if 0xE0 ≤ b ∧ b ≤ 0xEF then
      match rest with
      | b2 :: b3 :: rest2 =>
        if utf8Second3 b b2 && isUtf8Cont b3 then
          match utf8DecodeAux rest2 with
          | some cs =>
            some (Char.ofNat ((b - 0xE0) * 0x1000 + (b2 - 0x80) * 0x40 + (b3 - 0x80)) :: cs)
          | none => none
        else none
      | _ => none
    else if 0xF0 ≤ b ∧ b ≤ 0xF4 then
      match rest with
      | b2 :: b3 :: b4 :: rest2 =>
        if utf8Second4 b b2 && isUtf8Cont b3 && isUtf8Cont b4 then
          match utf8DecodeAux rest2 with
          | some cs =>
            some (Char.ofNat
              ((b - 0xF0) * 0x40000 + (b2 - 0x80) * 0x1000 + (b3 - 0x80) * 0x40 + (b4 - 0x80)) :: cs)
          | none => none
        else none
      | _ => none
    else none

/-- Rust's `String::from_utf8` on the raw bytes, as a `String` option. -/
def utf8Decode (bs : List Nat) : Option String :=
  match utf8DecodeAux bs with
  | some cs => some (String.mk cs)
  | none => none

/-- The function `get_save_filename_from_zenity` (`main.rs` lines 40-51): spawn failure and
non-zero exit become `Err`; on success the stdout bytes go through
`String::from_utf8(..).unwrap()`, which panics on invalid UTF-8.  The spawn
outcome of the zenity subprocess is the explicit parameter. -/
def getSaveFilenameFromZenity (spawn : Except String ZOutput) : Res String :=
  match spawn with
  | .error e => .err e
  | .ok o =>
    if o.success then
      match utf8Decode o.stdoutBytes with
      | some s => .ok s
      | none => .panicked
    else .err ("zenity failed. Exit status: " ++ toString o.status)

/-- Rust's `str::trim`: remove leading and trailing whitespace characters.
(Rust trims Unicode `White_Space`; the inputs involved here are ASCII, where
`Char.isWhitespace` agrees.) -/
def rustTrim (s : String) : String :=
  String.mk (((s.data.dropWhile Char.isWhitespace).reverse.dropWhile Char.isWhitespace).reverse)

/-- One character of Rust's `{:?}` (Debug) formatting for strings: escape
backslash, quote and the common control characters.  (Rust additionally
escapes other non-printable characters; the labels involved here do not
contain any.) -/
def rustDebugEscapeChar (c : Char) : String :=
  if c = '"' then "\\\""
  else if c = '\\' then "\\\\"
  else if c = '\n' then "\\n"
  else if c = '\r' then "\\r"
  else if c = '\t' then "\\t"
  else String.mk [c]

/-- Rust's `format!("{:?}", s)` for a string `s`: quoted and escaped.
`String::from_utf8_lossy` is the identity on the valid text modelled here. -/
def rustDebugStr (s : String) : String :=
  "\"" ++ String.join (s.data.map rustDebugEscapeChar) ++ "\""

/-- The ordered Action Catalog: the row labels `get_user_choice_from_menu`
passes to `zenity --list` (`main.rs` lines 61-68): optionally the upload row,
then "Copy to clipboard", "Save as...", then one "Open with {viewer}" row per
configured viewer, in configuration order. -/
def catalogLabels (imgur : Bool) (viewers : List String) : List String :=
  (if imgur then ["Upload to imgur.com"] else []) ++
    (["Copy to clipboard", "Save as..."] ++ viewers.map (fun v => "Open with " ++ v))

/-- The Choice Resolver: the `match &output.stdout[..]` of
`get_user_choice_from_menu` (`main.rs` lines 76-91).  `stdout` is the menu
tool's stdout; `saveDialog` is the spawn outcome of the secondary save-file
dialog, consulted only in the "Save as..." branch (whose invocation is
recorded as an effect).  Returns the effect trace of the resolution step and
the resolved Choice or error. -/
def resolveStdout (stdout : String) (viewers : List String)
    (saveDialog : Except String ZOutput) : List Effect × Res Choice :=
  if stdout = "Upload to imgur.com\n" then ([], .ok .Upload)
  else if stdout = "Save as...\n" then
    ([.runSaveDialog],
      match getSaveFilenameFromZenity saveDialog with
      | .ok p => .ok (.SaveAs p)
      | .err e => .err e
      | .panicked => .panicked)
  else if stdout = "Copy to clipboard\n" then ([], .ok .CopyToClipboard)
  else
    match viewers.find? (fun v => stdout == "Open with " ++ v ++ "\n") with
    | some v => ([], .ok (.OpenWith v))
    | none => ([], .err ("Zenity returned unknown result " ++ rustDebugStr stdout))

/-- The function `get_user_choice_from_menu` (`main.rs` lines 53-92): invoke the zenity
menu with the Action Catalog; spawn failure and non-zero exit become `Err`;
otherwise the stdout is resolved against the viewer list. -/
def getUserChoiceFromMenu (imgur : Bool) (viewers : List String)
    (menu : Except String MenuOutput) (saveDialog : Except String ZOutput) :
    List Effect × Res Choice :=
  let eff := [Effect.runMenu (catalogLabels imgur viewers)]
  match menu with
  | .error e => (eff, .err e)
  | .ok o =>
    if o.success then
      let r := resolveStdout o.stdout viewers saveDialog
      (eff ++ r.1, r.2)
    else (eff, .err ("zenity failed. Exit status: " ++ toString o.status))

/-- The Upload arm of the dispatch `match` in `main` (lines 180-204): on a
successful upload with a link, copy the link to the clipboard as plain text
and notify success with the link in the body; with no link, only the
"Wtf, no link?" notification; on failure, an error notification carrying the
failure message. -/
def dispatchUpload (upload : Except String UploadInfo) : List Effect :=
  match upload with
  | .ok info =>
    match info.link with
    | some url =>
      [.clipboardWrite url "text/plain",
        .notifySend "Success:" (some ("Uploaded to " ++ url))]
    | none => [.notifySend "Wtf, no link?" none]
  | .error e => [.notifySend ("Error: " ++ e) none]

/-- The dispatch `match` in `main` (lines 179-214), one branch per Choice.
`clientId` is `matches.opt_str("imgur")`, unwrapped in the Upload branch;
`upload` is the outcome of `upload_to_imgur`; `imageData` is the capture
file's bytes as read for the clipboard branch. -/
def dispatchChoice (filePath imageData : String) (clientId : Option String)
    (upload : Except String UploadInfo) : Choice → List Effect × ExitKind
  | .Upload =>
    match clientId with
    | none => ([], .panicked)
    | some _ => (dispatchUpload upload, .normal)
  | .SaveAs p => ([.fileCopy filePath (rustTrim p)], .normal)
  | .OpenWith v => ([.spawnViewer v filePath], .normal)
  | .CopyToClipboard => ([.clipboardWrite imageData "image/png"], .normal)

/-- One declared command-line option: short name, long name, and whether it
takes an argument. -/
structure OptSpec where
  short : String
  long : String
  hasArg : Bool
deriving DecidableEq, Repr

/-- The option table `main` declares via `getopts` (`main.rs` lines 151-165):
the `-s` (`--select`) flag, `--imgur CLIENT_ID`, the repeatable
`--viewer IMAGE_VIEWER`, and the `-h` (`--help`) flag.  No other option is
declared. -/
def rscrotOpts : List OptSpec :=
  [⟨"s", "select", false⟩, ⟨"", "imgur", true⟩, ⟨"", "viewer", true⟩, ⟨"h", "help", false⟩]

/-- Parse-time failure of `getopts::Options::parse` (modelled from the
crate's documented contract). -/
inductive ParseError where
  | unrecognizedOption (name : String)
  | missingArgument (name : String)
deriving DecidableEq, Repr

/-- The matches produced by a successful parse: flag occurrences and
option-argument occurrences, each recorded by the option's long name, in
command-line order. -/
structure ParsedMatches where
  flags : List String
  vals : List (String × String)
deriving DecidableEq, Repr

/-- Character-list version of "starts with", used to classify argument
tokens structurally. -/
def charsStart : List Char → List Char → Bool
  | [], _ => true
  | _ :: _, [] => false
  | a :: as, b :: bs => a == b && charsStart as bs

/-- Does `s` start with `p`?  (`str::starts_with` on the argument tokens.) -/
def strStarts (p s : String) : Bool := charsStart p.data s.data

/-- Look up a declared option by its long name. -/
def findLong (name : String) : Option OptSpec :=
  rscrotOpts.find? (fun o => o.long == name)

/-- Look up a declared option by its short name. -/
def findShort (name : String) : Option OptSpec :=
  rscrotOpts.find? (fun o => o.short == name)

/-- The `getopts` argument scanning, modelled from the crate's documented
contract for the forms the claims exercise: `--` ends option processing,
`--name VALUE` / `--name` for long options, `-x VALUE` / `-x` for short
options, anything else is a free argument (ignored by `main`).  An
undeclared option name is an `unrecognizedOption` error; a declared
argument-taking option at the end of the command line is a
`missingArgument` error. -/
def parseGo : List String → ParsedMatches → Except ParseError ParsedMatches
  | [], m => .ok m
  | a :: rest, m =>
    if a = "--" then .ok m
    else if strStarts "--" a then
      let name := a.drop 2
      match findLong name with
      | none => .error (.unrecognizedOption name)
      | some o =>
        if o.hasArg then
          match rest with
          | [] => .error (.missingArgument name)
          | v :: rest2 => parseGo rest2 ⟨m.flags, m.vals ++ [(o.long, v)]⟩
        else parseGo rest ⟨m.flags ++ [o.long], m.vals⟩
    else if strStarts "-" a && a != "-" then
      let name := a.drop 1
      match findShort name with
      | none => .error (.unrecognizedOption name)
      | some o =>
        if o.hasArg then
          match rest with
          | [] => .error (.missingArgument name)
          | v :: rest2 => parseGo rest2 ⟨m.flags, m.vals ++ [(o.long, v)]⟩
        else parseGo rest ⟨m.flags ++ [o.long], m.vals⟩
    else parseGo rest m

/-- Rust's `opts.parse(args)` with an empty initial match set. -/
def parseArgs (args : List String) : Except ParseError ParsedMatches :=
  parseGo args ⟨[], []⟩

/-- Rust's `matches.opt_present(name)`: the name (short or long) is canonicalised
to the declared option's long name and looked up among the flag matches. -/
def optPresent (m : ParsedMatches) (name : String) : Bool :=
  match rscrotOpts.find? (fun o => o.short == name || o.long == name) with
  | some o => m.flags.contains o.long
  | none => false

/-- Rust's `matches.opt_strs(name)`: every argument given for the option, in
command-line order. -/
def optStrs (m : ParsedMatches) (name : String) : List String :=
  match rscrotOpts.find? (fun o => o.short == name || o.long == name) with
  | some o => (m.vals.filter (fun p => p.1 == o.long)).map Prod.snd
  | none => []

/-- Rust's `matches.opt_str(name)`: the first argument given for the option. -/
def optStr (m : ParsedMatches) (name : String) : Option String :=
  (optStrs m name).head?

/-- The function `main` (`main.rs` lines 147-215) as an effect trace and exit kind.
Parameters supply the outcomes of the external collaborators: `tmpDir` is
`env::temp_dir()`, `capture` the outcome of `save_screenshot`, `menu` the
spawn outcome of the zenity menu, `saveDialog` the spawn outcome of the
secondary save dialog, `upload` the outcome of `upload_to_imgur`, and
`imageData` the capture file's bytes.  A parse failure panics before any
subprocess is spawned; `-h` prints usage and returns without spawning;
every `unwrap` on an error outcome panics.  (Failures of the dispatch
effects themselves - clipboard, notification, file copy, viewer spawn -
also abort the process but are not modelled; the trace records the
attempted effects.) -/
def mainRun (args : List String) (tmpDir : String) (capture : Except String Unit)
    (menu : Except String MenuOutput) (saveDialog : Except String ZOutput)
    (upload : Except String UploadInfo) (imageData : String) :
    List Effect × ExitKind :=
  match parseArgs args with
  | .error _ => ([], .panicked)
  | .ok m =>
    if optPresent m "h" then ([], .normal)
    else
      let clientId := optStr m "imgur"
      let viewers := optStrs m "viewer"
      let filePath := tmpDir ++ "/rscrot_screenshot.png"
      let capEff := [Effect.runCapture filePath (optPresent m "s")]
      match capture with
      | .error _ => (capEff, .panicked)
      | .ok _ =>
        let r := getUserChoiceFromMenu clientId.isSome viewers menu saveDialog
        match r.2 with
        | .ok c =>
          let d := dispatchChoice filePath imageData clientId upload c
          (capEff ++ r.1 ++ d.1, d.2)
        | .err _ => (capEff ++ r.1, .panicked)
        | .panicked => (capEff ++ r.1, .panicked)

/-- The command line `--viewer v1 --viewer v2 ...` for a list of viewer
names. -/
def viewerArgs : List String → List String
  | [] => []
  | v :: vs => "--viewer" :: v :: viewerArgs vs

/-! ### Helper lemmas -/

lemma ne_of_data_head {a b : String} {c d : Char} (ha : a.data.head? = some c)
    (hb : b.data.head? = some d) (hcd : c ≠ d) : a ≠ b := by
  intro e
  rw [e, hb] at ha
  exact hcd (Option.some.inj ha.symm)

lemma openWith_head (v t : String) : ("Open with " ++ v ++ t).data.head? = some 'O' := by
  rw [String.data_append, String.data_append]
  rfl

lemma openWith_head1 (v : String) : ("Open with " ++ v).data.head? = some 'O' := by
  rw [String.data_append]
  rfl

lemma ow_nl_ne_upload (v : String) : "Open with " ++ v ++ "\n" ≠ "Upload to imgur.com\n" :=
  ne_of_data_head (openWith_head v "\n") rfl (by decide)

lemma ow_nl_ne_save (v : String) : "Open with " ++ v ++ "\n" ≠ "Save as...\n" :=
  ne_of_data_head (openWith_head v "\n") rfl (by decide)

lemma ow_nl_ne_copy (v : String) : "Open with " ++ v ++ "\n" ≠ "Copy to clipboard\n" :=
  ne_of_data_head (openWith_head v "\n") rfl (by decide)

lemma ow_ne_upload (v : String) : "Open with " ++ v ≠ "Upload to imgur.com" :=
  ne_of_data_head (openWith_head1 v) rfl (by decide)

lemma ow_ne_save (v : String) : "Open with " ++ v ≠ "Save as..." :=
  ne_of_data_head (openWith_head1 v) rfl (by decide)

lemma ow_ne_copy (v : String) : "Open with " ++ v ≠ "Copy to clipboard" :=
  ne_of_data_head (openWith_head1 v) rfl (by decide)

lemma openWith_injective : Function.Injective (fun v : String => "Open with " ++ v) := by
  intro a b h
  simp only at h
  have h2 : ("Open with " ++ a).data = ("Open with " ++ b).data := by rw [h]
  rw [String.data_append, String.data_append] at h2
  have h3 := List.append_cancel_left h2
  cases a
  cases b
  exact congrArg String.mk h3

lemma resolve_upload (vs : List String) (sd : Except String ZOutput) :
    resolveStdout "Upload to imgur.com\n" vs sd = ([], .ok .Upload) := by
  unfold resolveStdout
  rw [if_pos rfl]

lemma resolve_copy (vs : List String) (sd : Except String ZOutput) :
    resolveStdout "Copy to clipboard\n" vs sd = ([], .ok .CopyToClipboard) := by
  unfold resolveStdout
  rw [if_neg (by decide), if_neg (by decide), if_pos rfl]

lemma resolve_save_ok (vs : List String) (sd : Except String ZOutput) (p : String)
    (h : getSaveFilenameFromZenity sd = .ok p) :
    resolveStdout "Save as...\n" vs sd = ([.runSaveDialog], .ok (.SaveAs p)) := by
  unfold resolveStdout
  rw [if_neg (by decide), if_pos rfl, h]

lemma resolve_openWith (v : String) (vs : List String) (sd : Except String ZOutput)
    (hv : v ∈ vs) :
    ∃ w, resolveStdout ("Open with " ++ v ++ "\n") vs sd = ([], .ok (.OpenWith w)) := by
  unfold resolveStdout
  rw [if_neg (ow_nl_ne_upload v), if_neg (ow_nl_ne_save v), if_neg (ow_nl_ne_copy v)]
  have hsome :
      (vs.find? (fun w => "Open with " ++ v ++ "\n" == "Open with " ++ w ++ "\n")).isSome = true := by
    rw [List.find?_isSome]
    exact ⟨v, hv, by simp⟩
  obtain ⟨w, hw⟩ := Option.isSome_iff_exists.mp hsome
  rw [hw]
  exact ⟨w, rfl⟩

lemma catalogLabels_count (u : Bool) (vs : List String) (x : String) :
    (catalogLabels u vs).count ("Open with " ++ x) = vs.count x := by
  unfold catalogLabels
  rw [List.count_append, List.count_append]
  have h1 : (if u then ["Upload to imgur.com"] else []).count ("Open with " ++ x) = 0 := by
    cases u
    · simp
    · rw [if_pos rfl, List.count_eq_zero, List.mem_singleton]
      exact ow_ne_upload x
  have h2 : (["Copy to clipboard", "Save as..."]).count ("Open with " ++ x) = 0 := by
    rw [List.count_eq_zero]
    simp only [List.mem_cons, List.not_mem_nil, or_false]
    exact fun h => h.elim (ow_ne_copy x) (ow_ne_save x)
  have h3 : (vs.map (fun v => "Open with " ++ v)).count ("Open with " ++ x) = vs.count x := by
    simpa using List.count_map_of_injective vs (fun v : String => "Open with " ++ v)
      openWith_injective x
  rw [h1, h2, h3]
  omega

lemma menu_nonzero_err (imgur : Bool) (vs : List String) (o : MenuOutput)
    (sd : Except String ZOutput) (ho : o.success = false) :
    getUserChoiceFromMenu imgur vs (.ok o) sd =
      ([Effect.runMenu (catalogLabels imgur vs)],
        .err ("zenity failed. Exit status: " ++ toString o.status)) := by
  unfold getUserChoiceFromMenu
  simp [ho]

/-! ### Claim theorems -/

/-- Claim C1: round-trip between the Menu Presenter and the Choice Resolver.
For every configuration (upload enabled or not, any viewer list) and every
label of the built Action Catalog, resolving that label with its trailing
newline against the same viewer list succeeds with some Choice, provided the
secondary save dialog (consulted only for "Save as...") succeeds.  No catalog
entry is unresolvable. -/
theorem catalog_resolver_roundTrip (u : Bool) (vs : List String) (label : String)
    (hmem : label ∈ catalogLabels u vs) (sd : Except String ZOutput) (p : String)
    (hsd : getSaveFilenameFromZenity sd = .ok p) :
    ∃ c, (resolveStdout (label ++ "\n") vs sd).2 = .ok c := by
  unfold catalogLabels at hmem
  rw [List.mem_append] at hmem
  rcases hmem with h | h
  · cases u
    · simp at h
    · rw [if_pos rfl, List.mem_singleton] at h
      subst h
      refine ⟨.Upload, ?_⟩
      show (resolveStdout "Upload to imgur.com\n" vs sd).2 = .ok .Upload
      rw [resolve_upload]
  · rw [List.mem_append] at h
    rcases h with h | h
    · rw [List.mem_cons, List.mem_singleton] at h
      rcases h with rfl | rfl
      · refine ⟨.CopyToClipboard, ?_⟩
        show (resolveStdout "Copy to clipboard\n" vs sd).2 = .ok .CopyToClipboard
        rw [resolve_copy]
      · refine ⟨.SaveAs p, ?_⟩
        show (resolveStdout "Save as...\n" vs sd).2 = .ok (.SaveAs p)
        rw [resolve_save_ok vs sd p hsd]
    · rw [List.mem_map] at h
      obtain ⟨v, hv, rfl⟩ := h
      obtain ⟨w, hw⟩ := resolve_openWith v vs sd hv
      exact ⟨.OpenWith w, by rw [hw]⟩

/-- Witness for C1: the label "Open with feh" offered by the catalog for
upload enabled and viewers `["feh"]` resolves successfully. -/
theorem catalog_resolver_roundTrip_witness :
    ∃ c, (resolveStdout ("Open with feh" ++ "\n") ["feh"] (.ok ⟨true, 0, [47]⟩)).2 = .ok c :=
  catalog_resolver_roundTrip true ["feh"] "Open with feh" (by decide)
    (.ok ⟨true, 0, [47]⟩) "/" (by decide)

/-- Claim C2: the Action Catalog contains "Upload to imgur.com" iff upload is
enabled, always contains "Copy to clipboard" and "Save as..." in that order,
contains exactly one "Open with X" entry per configured viewer occurrence, the
viewer entries come last in configuration order, and the catalog for viewers
`["feh", "gimp"]` with upload disabled is exactly the four expected labels. -/
theorem menu_catalog_contents :
    (∀ (u : Bool) (vs : List String), "Upload to imgur.com" ∈ catalogLabels u vs ↔ u = true) ∧
    (∀ (u : Bool) (vs : List String),
      List.Sublist ["Copy to clipboard", "Save as..."] (catalogLabels u vs)) ∧
    (∀ (u : Bool) (vs : List String) (x : String),
      (catalogLabels u vs).count ("Open with " ++ x) = vs.count x) ∧
    (∀ (u : Bool) (vs : List String),
      catalogLabels u vs = catalogLabels u [] ++ vs.map (fun v => "Open with " ++ v)) ∧
    catalogLabels false ["feh", "gimp"] =
      ["Copy to clipboard", "Save as...", "Open with feh", "Open with gimp"] := by
  refine ⟨?_, ?_, ?_, ?_, by decide⟩
  · intro u vs
    cases u
    · simp only [Bool.false_eq_true, iff_false]
      intro h
      simp [catalogLabels] at h
      obtain ⟨v, _, he⟩ := h
      exact ow_ne_upload v he
    · simp [catalogLabels]
  · intro u vs
    exact (List.sublist_append_left _ _).trans (List.sublist_append_right _ _)
  · exact catalogLabels_count
  · intro u vs
    simp [catalogLabels, List.append_assoc]

/-- Claim C3: a raw selection label matching none of the resolution rules
(not the upload, save or copy label, nor "Open with {v}" for a configured
viewer `v`) yields the unknown-selection error carrying the raw label, and
never a Choice. -/
theorem resolver_unknown_selection (label : String) (vs : List String)
    (sd : Except String ZOutput)
    (h1 : label ≠ "Upload to imgur.com\n") (h2 : label ≠ "Save as...\n")
    (h3 : label ≠ "Copy to clipboard\n")
    (h4 : ∀ v ∈ vs, label ≠ "Open with " ++ v ++ "\n") :
    (resolveStdout label vs sd).2 =
      .err ("Zenity returned unknown result " ++ rustDebugStr label) ∧
    ∀ c, (resolveStdout label vs sd).2 ≠ .ok c := by
  have hfind : vs.find? (fun w => label == "Open with " ++ w ++ "\n") = none := by
    rw [List.find?_eq_none]
    intro x hx
    simp only [beq_iff_eq]
    exact h4 x hx
  have he : (resolveStdout label vs sd).2 =
      .err ("Zenity returned unknown result " ++ rustDebugStr label) := by
    unfold resolveStdout
    rw [if_neg h1, if_neg h2, if_neg h3, hfind]
  refine ⟨he, fun c hc => ?_⟩
  rw [he] at hc
  exact Res.noConfusion hc

/-- Witness for C3: the label "bogus\n" with viewers `["feh"]` is rejected
with the unknown-selection error. -/
theorem resolver_unknown_selection_witness :
    (resolveStdout "bogus\n" ["feh"] (.error "e")).2 =
      .err ("Zenity returned unknown result " ++ rustDebugStr "bogus\n") ∧
    ∀ c, (resolveStdout "bogus\n" ["feh"] (.error "e")).2 ≠ .ok c :=
  resolver_unknown_selection "bogus\n" ["feh"] (.error "e")
    (by decide) (by decide) (by decide) (by decide)

/-- Claim C4: the Upload dispatch.  On success with a link the dispatcher
copies exactly the link text to the clipboard as plain text and notifies
success with a body containing the link; on success without a link it emits
only the distinct "no link" notification and performs no clipboard write; on
failure it emits an error notification containing the failure message. -/
theorem upload_dispatch_semantics :
    (∀ url, dispatchUpload (.ok ⟨some url⟩) =
        [.clipboardWrite url "text/plain",
          .notifySend "Success:" (some ("Uploaded to " ++ url))] ∧
      ∃ pre post, "Uploaded to " ++ url = pre ++ url ++ post) ∧
    (dispatchUpload (.ok ⟨none⟩) = [.notifySend "Wtf, no link?" none] ∧
      (∀ d m, Effect.clipboardWrite d m ∉ dispatchUpload (.ok ⟨none⟩)) ∧
      "Wtf, no link?" ≠ "Success:") ∧
    (∀ e, dispatchUpload (.error e) = [.notifySend ("Error: " ++ e) none] ∧
      ∃ pre post, ("Error: " ++ e : String) = pre ++ e ++ post) := by
  refine ⟨fun url => ⟨rfl, "Uploaded to ", "", ?_⟩,
    ⟨rfl, fun d m h => ?_, by decide⟩,
    fun e => ⟨rfl, "Error: ", "", ?_⟩⟩
  · rw [String.append_empty]
  · simp [dispatchUpload] at h
  · rw [String.append_empty]

/-- Claim C6: for the SaveAs choice the resolver returns the secondary
dialog's output unmodified, and the dispatcher copies the capture file to
that output trimmed of surrounding whitespace; in particular the picker
results "/tmp/out.png " and "/tmp/out.png \n" both lead to destination
"/tmp/out.png". -/
theorem saveAs_destination_trimmed :
    (∀ (vs : List String) (sd : Except String ZOutput) (p : String),
      getSaveFilenameFromZenity sd = .ok p →
        (resolveStdout "Save as...\n" vs sd).2 = .ok (.SaveAs p)) ∧
    (∀ (fp img : String) (cid : Option String) (up : Except String UploadInfo) (p : String),
      dispatchChoice fp img cid up (.SaveAs p) = ([.fileCopy fp (rustTrim p)], .normal)) ∧
    rustTrim "/tmp/out.png " = "/tmp/out.png" ∧
    rustTrim "/tmp/out.png \n" = "/tmp/out.png" := by
  refine ⟨fun vs sd p h => ?_, fun _ _ _ _ _ => rfl, by decide, by decide⟩
  rw [resolve_save_ok vs sd p h]

/-- Witness for C6: a successful save dialog returning the single byte `/`
resolves to `SaveAs "/"`. -/
theorem saveAs_destination_trimmed_witness :
    (resolveStdout "Save as...\n" [] (.ok ⟨true, 0, [47]⟩)).2 = .ok (.SaveAs "/") :=
  saveAs_destination_trimmed.1 [] (.ok ⟨true, 0, [47]⟩) "/" (by decide)

/-- Claim C7: when the menu dialog exits non-zero, the Menu Presenter returns
an error carrying the tool's exit status, `main` executes no dispatch action
(no clipboard write, notification, file copy or viewer spawn appears in the
trace), and the process panics, exiting non-zero. -/
theorem menu_failure_no_dispatch (imgur : Bool) (vs : List String) (o : MenuOutput)
    (sd : Except String ZOutput) (ho : o.success = false)
    (args : List String) (m : ParsedMatches) (hargs : parseArgs args = .ok m)
    (hh : optPresent m "h" = false) (tmp img : String) (up : Except String UploadInfo) :
    (getUserChoiceFromMenu imgur vs (.ok o) sd).2 =
      .err ("zenity failed. Exit status: " ++ toString o.status) ∧
    (mainRun args tmp (.ok ()) (.ok o) sd up img).2 = .panicked ∧
    ∀ e ∈ (mainRun args tmp (.ok ()) (.ok o) sd up img).1, e.isDispatch = false := by
  have hmain : mainRun args tmp (.ok ()) (.ok o) sd up img =
      ([Effect.runCapture (tmp ++ "/rscrot_screenshot.png") (optPresent m "s"),
        Effect.runMenu (catalogLabels (optStr m "imgur").isSome (optStrs m "viewer"))],
        .panicked) := by
    unfold mainRun
    rw [hargs]
    simp [hh, menu_nonzero_err _ _ o sd ho]
  refine ⟨by rw [menu_nonzero_err imgur vs o sd ho], by rw [hmain], ?_⟩
  intro e he
  rw [hmain] at he
  simp only [List.mem_cons, List.not_mem_nil, or_false] at he
  rcases he with rfl | rfl <;> rfl

/-- Witness for C7: a menu dialog exiting with status 1 on the empty command
line aborts the run with no dispatch effect. -/
theorem menu_failure_no_dispatch_witness :
    (getUserChoiceFromMenu false [] (.ok ⟨false, 1, ""⟩) (.error "x")).2 =
      .err ("zenity failed. Exit status: " ++ toString (1 : Int)) ∧
    (mainRun [] "/tmp" (.ok ()) (.ok ⟨false, 1, ""⟩) (.error "x") (.error "u") "img").2 =
      .panicked ∧
    ∀ e ∈ (mainRun [] "/tmp" (.ok ()) (.ok ⟨false, 1, ""⟩) (.error "x") (.error "u") "img").1,
      e.isDispatch = false :=
  menu_failure_no_dispatch false [] ⟨false, 1, ""⟩ (.error "x") rfl [] ⟨[], []⟩ rfl rfl
    "/tmp" "img" (.error "u")

/-- Claim C8: the Choice Resolver is deterministic - two runs on the same raw
label, the same viewer list and the same secondary-dialog outcome produce
identical results (it is a pure function of its inputs). -/
theorem resolver_deterministic (s s' : String) (vs vs' : List String)
    (sd sd' : Except String ZOutput) (h1 : s = s') (h2 : vs = vs') (h3 : sd = sd') :
    resolveStdout s vs sd = resolveStdout s' vs' sd' := by
  subst h1
  subst h2
  subst h3
  rfl

/-- Witness for C8: two identical concrete runs agree. -/
theorem resolver_deterministic_witness :
    resolveStdout "x" [] (.error "e") = resolveStdout "x" [] (.error "e") :=
  resolver_deterministic "x" "x" [] [] (.error "e") (.error "e") rfl rfl rfl

/-- Claim C10: if the save-file dialog exits successfully but its stdout is
not valid UTF-8, `get_save_filename_from_zenity` panics at the UTF-8
conversion instead of returning an error; for valid UTF-8 output the decoded
bytes become the returned path. -/
theorem save_dialog_utf8_behaviour (o : ZOutput) (h : o.success = true) :
    (utf8Decode o.stdoutBytes = none → getSaveFilenameFromZenity (.ok o) = .panicked) ∧
    (∀ s, utf8Decode o.stdoutBytes = some s → getSaveFilenameFromZenity (.ok o) = .ok s) := by
  constructor
  · intro hn
    simp [getSaveFilenameFromZenity, h, hn]
  · intro s hs
    simp [getSaveFilenameFromZenity, h, hs]

/-- Witness for C10: the invalid byte 0xFF panics; the valid bytes "hi"
decode to the returned path. -/
theorem save_dialog_utf8_behaviour_witness :
    getSaveFilenameFromZenity (.ok ⟨true, 0, [0xFF]⟩) = .panicked ∧
    getSaveFilenameFromZenity (.ok ⟨true, 0, [104, 105]⟩) = .ok "hi" :=
  ⟨(save_dialog_utf8_behaviour ⟨true, 0, [0xFF]⟩ rfl).1 (by decide),
    (save_dialog_utf8_behaviour ⟨true, 0, [104, 105]⟩ rfl).2 "hi" (by decide)⟩

/-- Counterexample for C5: the option table declares no `-t` or `--timer`
option at all, and `-t` with any value (numeric or not) is an unrecognized
option at parse time. -/
theorem timer_option_counterexample :
    (rscrotOpts.any (fun o => o.short == "t" || o.long == "timer")) = false ∧
    parseArgs ["-t", "5"] = .error (.unrecognizedOption "t") ∧
    parseArgs ["-t", "abc"] = .error (.unrecognizedOption "t") :=
  ⟨by decide, rfl, rfl⟩

/-- Amended C5: the program recognizes no `-t`/`--timer` option; passing
`-t` (with any value) makes configuration parsing fail, and the program
panics before any subprocess is spawned (the effect trace is empty). -/
theorem timer_option_amended :
    (rscrotOpts.any (fun o => o.short == "t" || o.long == "timer")) = false ∧
    (∀ tmp cap menu sd up img,
      mainRun ["-t", "abc"] tmp cap menu sd up img = ([], .panicked)) ∧
    (∀ tmp cap menu sd up img,
      mainRun ["-t", "5"] tmp cap menu sd up img = ([], .panicked)) :=
  ⟨by decide, fun _ _ _ _ _ _ => rfl, fun _ _ _ _ _ _ => rfl⟩

/-- Counterexample for C9: duplicate viewer names are neither rejected nor
deduplicated - parsing `--viewer feh --viewer feh` succeeds, keeps both
occurrences, and the resulting catalog carries two identical labels. -/
theorem duplicate_viewers_counterexample :
    parseArgs ["--viewer", "feh", "--viewer", "feh"] =
      .ok ⟨[], [("viewer", "feh"), ("viewer", "feh")]⟩ ∧
    optStrs ⟨[], [("viewer", "feh"), ("viewer", "feh")]⟩ "viewer" = ["feh", "feh"] ∧
    ¬ (catalogLabels false ["feh", "feh"]).Nodup :=
  ⟨rfl, by decide, by decide⟩

/-- Amended C9: configuration keeps every `--viewer` occurrence in order
(no rejection, no deduplication), the catalog contains one "Open with X"
entry per occurrence, and resolving a duplicated label returns the first
matching occurrence. -/
theorem duplicate_viewers_amended :
    (∀ (vs : List String) (m : ParsedMatches),
      parseGo (viewerArgs vs) m =
        .ok ⟨m.flags, m.vals ++ vs.map (fun v => ("viewer", v))⟩) ∧
    (∀ (vs : List String) (x : String),
      (catalogLabels false vs).count ("Open with " ++ x) = vs.count x) ∧
    (∀ sd, (resolveStdout "Open with feh\n" ["feh", "feh"] sd).2 = .ok (.OpenWith "feh")) := by
  refine ⟨?_, fun vs x => catalogLabels_count false vs x, fun sd => rfl⟩
  intro vs
  induction vs with
  | nil =>
    intro m
    simp only [viewerArgs, List.map_nil, List.append_nil]
    rfl
  | cons v vs ih =>
    intro m
    have hstep : parseGo (viewerArgs (v :: vs)) m =
        parseGo (viewerArgs vs) ⟨m.flags, m.vals ++ [("viewer", v)]⟩ := rfl
    rw [hstep, ih]
    simp only [List.map_cons, List.append_assoc, List.singleton_append]

end Rscrot
